import Mathlib

/-!
# liblights (Samsung n1-common): a shallow embedding of `liblights/lights.c`

The C functions of `lights.c` are transcribed as Lean functions.

* C `int` values that the code keeps non-negative (colour channels, the
  brightness) are `Nat`; every intermediate value of `rgb_to_brightness` is at
  most `256 * 255`, so no 32-bit overflow can occur there.
* `state->color` is an `unsigned int`: a `Nat` below `2 ^ 32`.  The one place
  where the code adds to it (`brightness + state->color`, an `unsigned int`
  sum) is reduced `% 2 ^ 32` explicitly.
* Values handed to `write_int`, and return codes, are `Int`.
* The globals (`g_init`, `g_lock`, the static `already_warned`) and everything
  the module does to the outside world are threaded through an explicit
  `World`; what the kernel answers to the system calls of one `write_int`
  call is an explicit `SysOutcome` argument.
* A call that can never return in a single-threaded run (locking a mutex that
  is already held) yields `none`.
* The `dev` argument of the handlers is unused by all of them and is left out.
  `ALOGV` lines (verbose logging) are not modelled, `malloc` is taken to
  succeed.
-/

namespace Lights

/-! ## Data model -/

/-- Modelled from the spec: `struct light_state_t` of `hardware/lights.h`, which is
not part of the repository.  `color` is the packed 32-bit colour (`unsigned int`),
`flashMode` stands for the higher-level fields no handler of this module reads. -/
structure light_state_t where
  color : Nat
  flashMode : Int := 0
deriving DecidableEq

/-- The build variants selected by the preprocessor symbols `I9103` and `I927`.
`generic` is the build with neither symbol defined. -/
inductive Variant where
  | I9103
  | I927
  | generic
deriving DecidableEq

/-- Constants of the platform headers (`errno.h`, `hardware/hardware.h`) that
`lights.c` uses and the repository does not define. -/
structure Platform where
  EINVAL : Nat
  HARDWARE_DEVICE_TAG : Nat
deriving DecidableEq

/-- What the kernel answers to the system calls of one `write_int` call. -/
inductive SysOutcome where
  /-- The call `open(path, O_RDWR)` returned a negative fd with this `errno`. -/
  | open_failed (errno : Nat)
  /-- The file was opened and `write` returned `-1` with this `errno`. -/
  | write_failed (errno : Nat)
  /-- The file was opened and `write` returned the byte count `amt`. -/
  | written (amt : Nat)
deriving DecidableEq

/-- Observable actions of the module, in the order they happen. -/
inductive Event where
  /-- The call `pthread_mutex_lock(&g_lock)` returned. -/
  | mutex_lock
  /-- The call `pthread_mutex_unlock(&g_lock)`. -/
  | mutex_unlock
  /-- Entry into `write_int(path, value)`. -/
  | write_int (path : String) (value : Int)
  /-- The bytes of `buffer` handed to `write(fd, ...)` on the opened `path`. -/
  | sys_write (path : String) (buffer : String)
  /-- The `ALOGE` warning of a failed open. -/
  | ALOGE (path : String) (errno : Nat)
deriving DecidableEq

/-- The mutable globals of `lights.c` together with the trace of actions. -/
structure World where
  /-- State of `g_init`: `true` once `pthread_once` has run `init_g_lock`. -/
  g_init : Bool := false
  /-- State of `g_lock`: `true` while the mutex is held. -/
  g_lock : Bool := false
  /-- The `static int already_warned` of `write_int` (zero-initialised). -/
  already_warned : Int := 0
  /-- Actions so far, oldest first. -/
  trace : List Event := []
deriving DecidableEq

/-! ## Constants of `lights.c` -/

/-- Source: `#define ENABLE_BL 1` (lights.c:42). -/
def ENABLE_BL : Int := 1

/-- Source: `#define DISABLE_BL 0` (lights.c:43). -/
def DISABLE_BL : Int := 0

/-- Source: `PANEL_FILE` (lights.c:48). -/
def PANEL_FILE : String := "/sys/class/backlight/pwm-backlight/brightness"

/-- Source: `BUTTON_FILE` (lights.c:49-54).  The second branch is introduced by
`#else if defined (I927)`, which the preprocessor reads as a plain `#else`. -/
def BUTTON_FILE : Variant → String
  | .I9103 => "/sys/class/leds/button-backlight/brightness"
  | _ => "/sys/class/misc/melfas_touchkey/brightness"

/-- Source: `KEYBOARD_FILE` (lights.c:53). -/
def KEYBOARD_FILE : String := "/sys/class/sec/sec_stmpe_bl/backlight"

/-- Source: `NOTIFICATION_FILE_BLN` (lights.c:55). -/
def NOTIFICATION_FILE_BLN : String :=
  "/sys/class/misc/backlightnotification/notification_led"

/-- Modelled from the spec: the macro `LIGHT_ID_BACKLIGHT` of `hardware/lights.h`
(not in the repository); the spec names the identifier "backlight". -/
def LIGHT_ID_BACKLIGHT : String := "backlight"

/-- Modelled from the spec: the macro `LIGHT_ID_BUTTONS` of `hardware/lights.h`
(not in the repository); the spec names the identifier "buttons". -/
def LIGHT_ID_BUTTONS : String := "buttons"

/-- Modelled from the spec: the macro `LIGHT_ID_KEYBOARD` of `hardware/lights.h`
(not in the repository); the spec names the identifier "keyboard". -/
def LIGHT_ID_KEYBOARD : String := "keyboard"

/-- Modelled from the spec: the macro `LIGHT_ID_NOTIFICATIONS` of `hardware/lights.h`
(not in the repository); the spec names the identifier "notifications". -/
def LIGHT_ID_NOTIFICATIONS : String := "notifications"

/-- Modelled from the spec: the macro `LIGHT_ID_ATTENTION` of `hardware/lights.h`
(not in the repository); the spec names the identifier "attention". -/
def LIGHT_ID_ATTENTION : String := "attention"

/-- Modelled from the spec: the macro `LIGHT_ID_BATTERY` of `hardware/lights.h`
(not in the repository); the spec names the identifier "battery". -/
def LIGHT_ID_BATTERY : String := "battery"

/-! ## The lock -/

/-- Source: `init_g_lock` (lights.c:57-60): `pthread_mutex_init` leaves the
mutex initialised and free. -/
def init_g_lock (w : World) : World :=
  { w with g_lock := false }

/-- The call `pthread_once(&g_init, init_g_lock)`: runs the routine the first
time only. -/
def pthread_once (w : World) : World :=
  if w.g_init then w else { init_g_lock w with g_init := true }

/-- The call `pthread_mutex_lock(&g_lock)` in a single-threaded run: it returns
with the lock held when the lock was free, and never returns when it was held. -/
def pthread_mutex_lock (w : World) : Option World :=
  if w.g_lock then none
  else some { w with g_lock := true, trace := w.trace ++ [Event.mutex_lock] }

/-- The call `pthread_mutex_unlock(&g_lock)`: frees a held lock; unlocking a
free lock is undefined and yields no result. -/
def pthread_mutex_unlock (w : World) : Option World :=
  if w.g_lock then
    some { w with g_lock := false, trace := w.trace ++ [Event.mutex_unlock] }
  else none

/-! ## Device-file writer -/

/-- Source: `write_int` (lights.c:62-83).  The statement `already_warned = 0;`
is executed on every call, before the file is opened. -/
def write_int (o : SysOutcome) (path : String) (value : Int) (w : World) : Int × World :=
  let w := { w with trace := w.trace ++ [Event.write_int path value] }
  let w := { w with already_warned := 0 }
  match o with
  | .written _ =>
      let buffer := toString value ++ "\n"
      (0, { w with trace := w.trace ++ [Event.sys_write path buffer] })
  | .write_failed errno =>
      let buffer := toString value ++ "\n"
      (-(errno : Int), { w with trace := w.trace ++ [Event.sys_write path buffer] })
  | .open_failed errno =>
      if w.already_warned = 0 then
        (-(errno : Int),
          { w with trace := w.trace ++ [Event.ALOGE path errno], already_warned := 1 })
      else
        (-(errno : Int), w)

/-! ## Brightness encoder -/

/-- Source: `is_lit` (lights.c:86-89). -/
def is_lit (state : light_state_t) : Nat :=
  state.color &&& 0x00ffffff

/-- Source: `rgb_to_brightness` (lights.c:92-98). -/
def rgb_to_brightness (state : light_state_t) : Nat :=
  let color := state.color &&& 0x00ffffff
  ((77 * ((color >>> 16) &&& 0x00ff))
    + (150 * ((color >>> 8) &&& 0x00ff)) + (29 * (color &&& 0x00ff))) >>> 8

/-! ## Logical light handlers -/

/-- Source: `set_light_backlight` (lights.c:100-112). -/
def set_light_backlight (o : SysOutcome) (state : light_state_t) (w : World) :
    Option (Int × World) := do
  let brightness := rgb_to_brightness state
  let w ← pthread_mutex_lock w
  let (err, w) := write_int o PANEL_FILE brightness w
  let w ← pthread_mutex_unlock w
  return (err, w)

/-- Source: `set_light_buttons` (lights.c:114-129). -/
def set_light_buttons (v : Variant) (o : SysOutcome) (state : light_state_t) (w : World) :
    Option (Int × World) := do
  let brightness := rgb_to_brightness state
  let brightness := if brightness ≠ 0 then 255 else brightness
  let w ← pthread_mutex_lock w
  let (err, w) := write_int o (BUTTON_FILE v) brightness w
  let w ← pthread_mutex_unlock w
  return (err, w)

/-- Source: `set_light_keyboard` (lights.c:132-144), compiled for `I927` only. -/
def set_light_keyboard (o : SysOutcome) (state : light_state_t) (w : World) :
    Option (Int × World) := do
  let on_ := is_lit state
  let w ← pthread_mutex_lock w
  let (err, w) := write_int o KEYBOARD_FILE (if on_ ≠ 0 then 1 else 0) w
  let w ← pthread_mutex_unlock w
  return (err, w)

/-- Source: `set_light_leds_notifications` (lights.c:157-177).  The sum
`brightness+state->color` is an `unsigned int` sum, hence `% 2 ^ 32`. -/
def set_light_leds_notifications (o : SysOutcome) (state : light_state_t) (w : World) :
    Option (Int × World) :=
  let brightness := rgb_to_brightness state
  if (brightness + state.color) % 2 ^ 32 = 0 ∨ brightness > 100 then do
    let w ← pthread_mutex_lock w
    let (_err, w) :=
      if state.color &&& 0x00ffffff ≠ 0 then
        write_int o NOTIFICATION_FILE_BLN ENABLE_BL w
      else
        write_int o NOTIFICATION_FILE_BLN DISABLE_BL w
    let w ← pthread_mutex_unlock w
    return (0, w)
  else
    some (0, w)

/-- Source: `set_light_leds_attention` (lights.c:179-183). -/
def set_light_leds_attention (_state : light_state_t) (w : World) : Option (Int × World) :=
  some (0, w)

/-- Source: `set_light_battery` (lights.c:185-189). -/
def set_light_battery (_state : light_state_t) (w : World) : Option (Int × World) :=
  some (0, w)

/-! ## Registry / factory -/

/-- The functions a handle can hold in its `set_light` slot, by name. -/
inductive set_light_fn where
  | set_light_backlight
  | set_light_buttons
  | set_light_keyboard
  | set_light_leds_notifications
  | set_light_leds_attention
  | set_light_battery
deriving DecidableEq

/-- The functions a handle can hold in its `close` slot, by name. -/
inductive close_fn where
  | close_lights
deriving DecidableEq

/-- Modelled from the spec: `struct light_device_t` of `hardware/lights.h` with its
`hw_device_t` header (`common`), not part of the repository: a tag/version
marker, a reference to the owning module, a close operation and the bound
handler.  `module` is the address of the module; a null function pointer is
`none`. -/
structure light_device_t where
  tag : Nat
  version : Nat
  module : Nat
  close : Option close_fn
  set_light : Option set_light_fn
deriving DecidableEq

/-- The handle right after `memset(dev, 0, sizeof(*dev))`. -/
def light_device_t.zeroed : light_device_t :=
  { tag := 0, version := 0, module := 0, close := none, set_light := none }

/-- Source: `close_lights` (lights.c:147-154): frees the handle when there is
one; always returns 0. -/
def close_lights (_dev : Option light_device_t) : Int := 0

/-- Calls the function a `set_light` slot names. -/
def set_light_fn.call (v : Variant) (f : set_light_fn) (o : SysOutcome)
    (state : light_state_t) (w : World) : Option (Int × World) :=
  match f with
  | .set_light_backlight => Lights.set_light_backlight o state w
  | .set_light_buttons => Lights.set_light_buttons v o state w
  | .set_light_keyboard => Lights.set_light_keyboard o state w
  | .set_light_leds_notifications => Lights.set_light_leds_notifications o state w
  | .set_light_leds_attention => Lights.set_light_leds_attention state w
  | .set_light_battery => Lights.set_light_battery state w

/-- Source: `open_lights` (lights.c:191-228).  `device` is the content of
`*device` before the call (`none`: no handle); the result is the return code,
the content of `*device` after the call, and the new globals.  The comparison
`0 == strcmp(ID, name)` is equality of the two strings; the `keyboard` branch
exists in the `I927` build only. -/
def open_lights (P : Platform) (v : Variant) (module : Nat) (name : String)
    (device : Option light_device_t) (w : World) :
    Int × Option light_device_t × World :=
  let set_light : Option set_light_fn :=
    if LIGHT_ID_BACKLIGHT = name then some .set_light_backlight
    else if LIGHT_ID_BUTTONS = name then some .set_light_buttons
    else if LIGHT_ID_NOTIFICATIONS = name then some .set_light_leds_notifications
    else if LIGHT_ID_ATTENTION = name then some .set_light_leds_attention
    else if LIGHT_ID_BATTERY = name then some .set_light_battery
    else if v = .I927 ∧ LIGHT_ID_KEYBOARD = name then some .set_light_keyboard
    else none
  match set_light with
  | none => (-(P.EINVAL : Int), device, w)
  | some set_light =>
      let w := pthread_once w
      let dev := light_device_t.zeroed
      let dev := { dev with tag := P.HARDWARE_DEVICE_TAG }
      let dev := { dev with version := 0 }
      let dev := { dev with module := module }
      let dev := { dev with close := some close_fn.close_lights }
      let dev := { dev with set_light := some set_light }
      (0, some dev, w)

/-! ## Reading traces -/

/-- Runs a sequence of `write_int` calls, each with its own kernel answer, path
and value; gives the return codes in call order and the final globals. -/
def write_int_calls : List (SysOutcome × String × Int) → World → List Int × World
  | [], w => ([], w)
  | (o, path, value) :: rest, w =>
      let r := write_int o path value w
      let rs := write_int_calls rest r.2
      (r.1 :: rs.1, rs.2)

/-- The `(path, value)` pairs of the `write_int` calls of a trace, in order. -/
def write_calls : List Event → List (String × Int)
  | [] => []
  | Event.write_int path value :: es => (path, value) :: write_calls es
  | _ :: es => write_calls es

/-- The number of open-failure warnings in a trace. -/
def warnings : List Event → Nat
  | [] => 0
  | Event.ALOGE _ _ :: es => warnings es + 1
  | _ :: es => warnings es

/-- Replays a trace against the lock, starting with the lock held or not.  The
result is the final lock state, or `none` when the trace breaks the locking
discipline: taking a held lock, releasing a free one, or doing anything inside
`write_int` (the call itself, its `write`, its warning) while the lock is free. -/
def lock_discipline : Bool → List Event → Option Bool
  | held, [] => some held
  | held, Event.mutex_lock :: es => if held then none else lock_discipline true es
  | held, Event.mutex_unlock :: es => if held then lock_discipline false es else none
  | held, _ :: es => if held then lock_discipline held es else none

/-- An event that happens inside `write_int`, after its entry. -/
def Event.inside_write_int : Event → Bool
  | Event.sys_write _ _ => true
  | Event.ALOGE _ _ => true
  | _ => false

/-! ## Auxiliary definitions for the proofs -/

/-- The critical section the writing handlers share: take the lock, call
`write_int`, release the lock, return the code of `write_int`.  Not a function
of `lights.c`; each handler is shown to be an instance of it. -/
def locked_write_int (o : SysOutcome) (path : String) (value : Int) (w : World) :
    Option (Int × World) := do
  let w ← pthread_mutex_lock w
  let (err, w) := write_int o path value w
  let w ← pthread_mutex_unlock w
  return (err, w)

/-- The events one `write_int` call adds after its entry (see `write_int_eq`). -/
def write_int_inner (o : SysOutcome) (path : String) (value : Int) : List Event :=
  match o with
  | .open_failed errno => [Event.ALOGE path errno]
  | _ => [Event.sys_write path (toString value ++ "\n")]

/-- The return code of one `write_int` call (see `write_int_eq`). -/
def write_int_code : SysOutcome → Int
  | .written _ => 0
  | .write_failed errno => -(errno : Int)
  | .open_failed errno => -(errno : Int)

/-- The value of `already_warned` after one `write_int` call (see `write_int_eq`). -/
def write_int_flag : SysOutcome → Int
  | .open_failed _ => 1
  | _ => 0

/-- A run from `w` that returned, left the lock free, and whose new events keep
the locking discipline and are either none at all or one lock / `write_int` /
unlock bracket. -/
def lock_disciplined_run (w : World) (result : Option (Int × World)) : Prop :=
  ∃ r w' evs, result = some (r, w') ∧ w'.g_lock = false ∧ w'.trace = w.trace ++ evs
    ∧ lock_discipline false evs = some false
    ∧ (evs = [] ∨ ∃ path value inner,
        evs = [Event.mutex_lock, Event.write_int path value] ++ inner ++ [Event.mutex_unlock]
        ∧ ∀ e ∈ inner, e.inside_write_int = true)

/-! ## Arithmetic of the encoder -/

/-- Masking with `0x00ffffff` keeps the low 24 bits. -/
theorem land_ffffff (c : Nat) : c &&& 0x00ffffff = c % 2 ^ 24 :=
  Nat.and_pow_two_sub_one_eq_mod c 24

/-- Masking with `0x00ff` keeps the low 8 bits. -/
theorem land_ff (c : Nat) : c &&& 0x00ff = c % 2 ^ 8 :=
  Nat.and_pow_two_sub_one_eq_mod c 8

/-- The encoder in terms of division and remainder: the three channel bytes of
the colour, weighted, divided by 256. -/
theorem rgb_to_brightness_eq (s : light_state_t) :
    rgb_to_brightness s
      = (77 * (s.color / 65536 % 256) + 150 * (s.color / 256 % 256)
          + 29 * (s.color % 256)) / 256 := by
  unfold rgb_to_brightness
  simp only [land_ffffff, land_ff, Nat.shiftRight_eq_div_pow]
  have h1 : s.color % 2 ^ 24 / 2 ^ 16 % 2 ^ 8 = s.color / 65536 % 256 := by omega
  have h2 : s.color % 2 ^ 24 / 2 ^ 8 % 2 ^ 8 = s.color / 256 % 256 := by omega
  have h3 : s.color % 2 ^ 24 % 2 ^ 8 = s.color % 256 := by omega
  rw [h1, h2, h3]

/-- The brightness never exceeds 255: the weights sum to 256. -/
theorem rgb_to_brightness_le (s : light_state_t) : rgb_to_brightness s ≤ 255 := by
  rw [rgb_to_brightness_eq]
  omega

/-- The 32-bit sum of the notification guard vanishes at exactly two colours. -/
theorem sum_wraps_iff (s : light_state_t) (h : s.color < 2 ^ 32) :
    (rgb_to_brightness s + s.color) % 2 ^ 32 = 0
      ↔ s.color = 0 ∨ s.color = 0xFFFFFF1B := by
  have hle := rgb_to_brightness_le s
  have heq := rgb_to_brightness_eq s
  constructor
  · intro h0
    by_cases hc : s.color = 0
    · exact Or.inl hc
    · right
      have hsum : rgb_to_brightness s + s.color = 2 ^ 32 := by
        clear heq
        omega
      have hR : s.color / 65536 % 256 = 255 := by
        clear heq
        omega
      have hG : s.color / 256 % 256 = 255 := by
        clear heq
        omega
      have hB : s.color = 4294967040 + s.color % 256 := by
        clear heq hR hG
        omega
      rw [hR, hG] at heq
      clear hR hG
      generalize s.color % 256 = B at heq hB
      omega
  · rintro (h0 | h0)
    · rw [heq, h0]
      norm_num
    · rw [heq, h0]
      norm_num

/-- C1: for every light state, `rgb_to_brightness` is `(77*R + 150*G + 29*B) >> 8`
with `R`, `G`, `B` the bytes at bits 16-23, 8-15 and 0-7 of the colour (the top
byte plays no part), the result is at most 255 (and, a `Nat`, at least 0), it is
0 for colour `0x000000` and 255 for colour `0xFFFFFF`. -/
theorem C1_rgb_to_brightness_formula_and_range :
    (∀ s : light_state_t,
        rgb_to_brightness s
          = (77 * (s.color / 2 ^ 16 % 2 ^ 8) + 150 * (s.color / 2 ^ 8 % 2 ^ 8)
              + 29 * (s.color % 2 ^ 8)) >>> 8
        ∧ rgb_to_brightness s ≤ 255
        ∧ rgb_to_brightness s = rgb_to_brightness { s with color := s.color % 2 ^ 24 })
    ∧ (∀ fm, rgb_to_brightness ⟨0x000000, fm⟩ = 0)
    ∧ (∀ fm, rgb_to_brightness ⟨0xFFFFFF, fm⟩ = 255) := by
  refine ⟨fun s => ⟨?_, rgb_to_brightness_le s, ?_⟩, fun _ => by rw [rgb_to_brightness_eq]; norm_num,
    fun _ => by rw [rgb_to_brightness_eq]; norm_num⟩
  · rw [rgb_to_brightness_eq, Nat.shiftRight_eq_div_pow]
    norm_num
  · rw [rgb_to_brightness_eq, rgb_to_brightness_eq]
    simp only
    have h1 : s.color % 2 ^ 24 / 65536 % 256 = s.color / 65536 % 256 := by omega
    have h2 : s.color % 2 ^ 24 / 256 % 256 = s.color / 256 % 256 := by omega
    have h3 : s.color % 2 ^ 24 % 256 = s.color % 256 := by omega
    rw [h1, h2, h3]

/-- C2 (as stated, refuted): the pure-channel colours do not give 77, 150 and
29; already pure red gives 76, since `77 * 255 >> 8 = 76`. -/
theorem C2_pure_channels_counterexample :
    rgb_to_brightness ⟨0xFF0000, 0⟩ = 76
    ∧ ¬ (rgb_to_brightness ⟨0xFF0000, 0⟩ = 77 ∧ rgb_to_brightness ⟨0x00FF00, 0⟩ = 150
        ∧ rgb_to_brightness ⟨0x0000FF, 0⟩ = 29) := by
  decide

/-- C2 (amended): on the pure-channel colours `rgb_to_brightness` gives each
weight times 255, shifted right by 8: 76 for `0xFF0000`, 149 for `0x00FF00` and
28 for `0x0000FF`. -/
theorem C2_pure_channels_amended :
    ∀ fm, rgb_to_brightness ⟨0xFF0000, fm⟩ = 76 ∧ rgb_to_brightness ⟨0x00FF00, fm⟩ = 149
      ∧ rgb_to_brightness ⟨0x0000FF, fm⟩ = 28 := by
  intro fm
  simp only [rgb_to_brightness_eq]
  norm_num

/-- C10 (as stated, refuted): at colour `0xFFFFFF1B` the brightness is 229 and
the 32-bit sum `brightness + color` wraps to 0, although neither operand is 0. -/
theorem C10_sum_guard_counterexample :
    rgb_to_brightness ⟨0xFFFFFF1B, 0⟩ = 229
    ∧ (rgb_to_brightness ⟨0xFFFFFF1B, 0⟩ + 0xFFFFFF1B) % 2 ^ 32 = 0
    ∧ ¬ ((rgb_to_brightness ⟨0xFFFFFF1B, 0⟩ + 0xFFFFFF1B) % 2 ^ 32 = 0
        ↔ rgb_to_brightness ⟨0xFFFFFF1B, 0⟩ = 0 ∧ 0xFFFFFF1B = 0) := by
  decide

/-- C10 (amended): for every light state with a 32-bit colour, the 32-bit sum
`brightness + color` is 0 if and only if brightness and colour are both 0 or
the colour is `0xFFFFFF1B` (brightness 229, the sum wraps). -/
theorem C10_sum_guard_amended (s : light_state_t) (h : s.color < 2 ^ 32) :
    (rgb_to_brightness s + s.color) % 2 ^ 32 = 0
      ↔ (rgb_to_brightness s = 0 ∧ s.color = 0) ∨ s.color = 0xFFFFFF1B := by
  rw [sum_wraps_iff s h]
  constructor
  · rintro (h0 | h0)
    · left
      refine ⟨?_, h0⟩
      rw [rgb_to_brightness_eq, h0]
    · exact Or.inr h0
  · rintro (⟨_, h0⟩ | h0)
    · exact Or.inl h0
    · exact Or.inr h0

/-- C10 (amended) at colour `0xFFFFFF1B`, where both sides hold. -/
theorem C10_sum_guard_amended_witness :
    0xFFFFFF1B < 2 ^ 32
    ∧ ((rgb_to_brightness ⟨0xFFFFFF1B, 0⟩ + 0xFFFFFF1B) % 2 ^ 32 = 0
        ↔ (rgb_to_brightness ⟨0xFFFFFF1B, 0⟩ = 0 ∧ 0xFFFFFF1B = 0)
            ∨ 0xFFFFFF1B = 0xFFFFFF1B) :=
  ⟨by decide, C10_sum_guard_amended ⟨0xFFFFFF1B, 0⟩ (by decide)⟩

/-! ## The writer and the critical section in closed form -/

/-- One `write_int` call in closed form: its code, the flag it leaves and the
events it adds.  The flag it finds plays no part. -/
theorem write_int_eq (o : SysOutcome) (path : String) (value : Int) (w : World) :
    write_int o path value w
      = (write_int_code o,
          { w with
            already_warned := write_int_flag o
            trace := w.trace ++ Event.write_int path value :: write_int_inner o path value }) := by
  cases o <;> simp [write_int, write_int_code, write_int_flag, write_int_inner]

/-- The code of `write_int` is 0 or negative. -/
theorem write_int_code_nonpos (o : SysOutcome) : write_int_code o ≤ 0 := by
  cases o <;> simp [write_int_code]

/-- The critical section in closed form, started with the lock free. -/
theorem locked_write_int_eq (o : SysOutcome) (path : String) (value : Int) (w : World)
    (h : w.g_lock = false) :
    locked_write_int o path value w
      = some (write_int_code o,
          { w with
            g_lock := false
            already_warned := write_int_flag o
            trace := w.trace ++ ([Event.mutex_lock, Event.write_int path value]
              ++ write_int_inner o path value ++ [Event.mutex_unlock]) }) := by
  simp [locked_write_int, pthread_mutex_lock, pthread_mutex_unlock, h, write_int_eq]

/-- One critical section holds exactly one `write_int` call. -/
theorem write_calls_bracket (o : SysOutcome) (path : String) (value : Int) :
    write_calls ([Event.mutex_lock, Event.write_int path value]
      ++ write_int_inner o path value ++ [Event.mutex_unlock]) = [(path, value)] := by
  cases o <;> simp [write_calls, write_int_inner]

/-- One critical section keeps the locking discipline and ends with the lock free. -/
theorem lock_discipline_bracket (o : SysOutcome) (path : String) (value : Int) :
    lock_discipline false ([Event.mutex_lock, Event.write_int path value]
      ++ write_int_inner o path value ++ [Event.mutex_unlock]) = some false := by
  cases o <;> simp [lock_discipline, write_int_inner]

/-- What `write_int` adds after its entry is its `write` or its warning. -/
theorem inside_write_int_inner (o : SysOutcome) (path : String) (value : Int) :
    ∀ e ∈ write_int_inner o path value, e.inside_write_int = true := by
  cases o <;> simp [write_int_inner, Event.inside_write_int]

/-- The backlight handler is the critical section on `PANEL_FILE`. -/
theorem set_light_backlight_eq (o : SysOutcome) (s : light_state_t) (w : World) :
    set_light_backlight o s w = locked_write_int o PANEL_FILE (rgb_to_brightness s) w := rfl

/-- The buttons handler is the critical section on `BUTTON_FILE`. -/
theorem set_light_buttons_eq (v : Variant) (o : SysOutcome) (s : light_state_t) (w : World) :
    set_light_buttons v o s w
      = locked_write_int o (BUTTON_FILE v)
          ((if rgb_to_brightness s ≠ 0 then 255 else rgb_to_brightness s : Nat) : Int) w := rfl

/-- The keyboard handler is the critical section on `KEYBOARD_FILE`. -/
theorem set_light_keyboard_eq (o : SysOutcome) (s : light_state_t) (w : World) :
    set_light_keyboard o s w
      = locked_write_int o KEYBOARD_FILE (if is_lit s ≠ 0 then 1 else 0) w := rfl

/-- The notification handler: under its guard the critical section on
`NOTIFICATION_FILE_BLN` with the code replaced by 0, otherwise nothing. -/
theorem set_light_leds_notifications_eq (o : SysOutcome) (s : light_state_t) (w : World) :
    set_light_leds_notifications o s w
      = if (rgb_to_brightness s + s.color) % 2 ^ 32 = 0 ∨ rgb_to_brightness s > 100 then
          (locked_write_int o NOTIFICATION_FILE_BLN
            (if s.color &&& 0x00ffffff ≠ 0 then ENABLE_BL else DISABLE_BL) w).map
            fun r => (0, r.2)
        else some (0, w) := by
  unfold set_light_leds_notifications locked_write_int
  by_cases hg : (rgb_to_brightness s + s.color) % 2 ^ 32 = 0 ∨ rgb_to_brightness s > 100
  · by_cases hc : s.color &&& 0x00ffffff ≠ 0
    · simp only [if_pos hg, if_pos hc]
      cases pthread_mutex_lock w with
      | none => rfl
      | some w1 =>
        simp only [Option.bind_eq_bind, Option.some_bind]
        cases pthread_mutex_unlock (write_int o NOTIFICATION_FILE_BLN ENABLE_BL w1).2 <;> rfl
    · simp only [if_pos hg, if_neg hc]
      cases pthread_mutex_lock w with
      | none => rfl
      | some w1 =>
        simp only [Option.bind_eq_bind, Option.some_bind]
        cases pthread_mutex_unlock (write_int o NOTIFICATION_FILE_BLN DISABLE_BL w1).2 <;> rfl
  · simp only [if_neg hg]

/-! ## Handlers -/

/-- C3: started with the lock free, `set_light_buttons` returns and makes
exactly one `write_int` call, on the button backlight file, whose value is 255
when `rgb_to_brightness state > 0` and 0 otherwise; for colour `0x000000` the
value is 0. -/
theorem C3_set_light_buttons_value (v : Variant) (o : SysOutcome) (s : light_state_t)
    (w : World) (h : w.g_lock = false) :
    ∃ r w' evs, set_light_buttons v o s w = some (r, w') ∧ w'.trace = w.trace ++ evs
      ∧ write_calls evs = [(BUTTON_FILE v, if rgb_to_brightness s > 0 then 255 else 0)]
      ∧ (s.color = 0 → write_calls evs = [(BUTTON_FILE v, 0)]) := by
  rw [set_light_buttons_eq, locked_write_int_eq _ _ _ _ h]
  refine ⟨_, _, _, rfl, rfl, ?_, ?_⟩
  · rw [write_calls_bracket]
    by_cases hb : rgb_to_brightness s = 0
    · simp [hb]
    · have hpos : rgb_to_brightness s > 0 := Nat.pos_of_ne_zero hb
      simp [hb, hpos]
  · intro hc
    have hb : rgb_to_brightness s = 0 := by
      rw [rgb_to_brightness_eq, hc]
    rw [write_calls_bracket]
    simp [hb]

/-- C3 at colour `0x00FF00` on the I9103 build, write succeeding, from the
initial globals. -/
theorem C3_set_light_buttons_value_witness :
    ({} : World).g_lock = false ∧
    ∃ r w' evs, set_light_buttons .I9103 (.written 4) ⟨0x00FF00, 0⟩ {} = some (r, w')
      ∧ w'.trace = ({} : World).trace ++ evs
      ∧ write_calls evs
          = [(BUTTON_FILE .I9103, if rgb_to_brightness ⟨0x00FF00, 0⟩ > 0 then 255 else 0)]
      ∧ ((⟨0x00FF00, 0⟩ : light_state_t).color = 0
          → write_calls evs = [(BUTTON_FILE .I9103, 0)]) :=
  ⟨rfl, C3_set_light_buttons_value .I9103 (.written 4) ⟨0x00FF00, 0⟩ {} rfl⟩

/-- C4: started with the lock free, with `brightness = rgb_to_brightness state`
and the guard `brightness + color == 0 || brightness > 100` (`unsigned int`
sum): under the guard with nonzero low 24 bits `set_light_leds_notifications`
makes exactly one `write_int` call, writing 1 to the notification LED file;
under the guard with zero low 24 bits exactly one, writing 0; without the guard
it leaves the globals and the trace untouched; it returns 0 in all three cases.
For a 32-bit colour the guard has the same truth value when the sum is taken
without wrap-around. -/
theorem C4_set_light_leds_notifications (o : SysOutcome) (s : light_state_t) (w : World)
    (h : w.g_lock = false) :
    (((rgb_to_brightness s + s.color) % 2 ^ 32 = 0 ∨ rgb_to_brightness s > 100)
        ∧ s.color % 2 ^ 24 ≠ 0 →
      ∃ w' evs, set_light_leds_notifications o s w = some (0, w')
        ∧ w'.trace = w.trace ++ evs ∧ write_calls evs = [(NOTIFICATION_FILE_BLN, 1)])
    ∧ (((rgb_to_brightness s + s.color) % 2 ^ 32 = 0 ∨ rgb_to_brightness s > 100)
        ∧ s.color % 2 ^ 24 = 0 →
      ∃ w' evs, set_light_leds_notifications o s w = some (0, w')
        ∧ w'.trace = w.trace ++ evs ∧ write_calls evs = [(NOTIFICATION_FILE_BLN, 0)])
    ∧ (¬ ((rgb_to_brightness s + s.color) % 2 ^ 32 = 0 ∨ rgb_to_brightness s > 100) →
      set_light_leds_notifications o s w = some (0, w))
    ∧ (s.color < 2 ^ 32 →
      (((rgb_to_brightness s + s.color) % 2 ^ 32 = 0 ∨ rgb_to_brightness s > 100)
        ↔ (rgb_to_brightness s + s.color = 0 ∨ rgb_to_brightness s > 100))) := by
  refine ⟨?_, ?_, ?_, ?_⟩
  · rintro ⟨hg, hc⟩
    have hc' : s.color &&& 0x00ffffff ≠ 0 := by rwa [land_ffffff]
    rw [set_light_leds_notifications_eq, if_pos hg, if_pos hc',
      locked_write_int_eq _ _ _ _ h]
    exact ⟨_, _, rfl, rfl, write_calls_bracket _ _ _⟩
  · rintro ⟨hg, hc⟩
    have hc' : ¬ (s.color &&& 0x00ffffff ≠ 0) := by
      rw [land_ffffff]
      exact not_not.mpr hc
    rw [set_light_leds_notifications_eq, if_pos hg, if_neg hc',
      locked_write_int_eq _ _ _ _ h]
    exact ⟨_, _, rfl, rfl, write_calls_bracket _ _ _⟩
  · intro hg
    rw [set_light_leds_notifications_eq, if_neg hg]
  · intro hlt
    rw [sum_wraps_iff s hlt]
    have heq := rgb_to_brightness_eq s
    constructor
    · rintro ((h0 | h0) | h0)
      · left
        rw [heq, h0]
      · right
        rw [heq, h0]
        norm_num
      · exact Or.inr h0
    · rintro (h0 | h0)
      · left
        left
        omega
      · exact Or.inr h0

/-- C4 at three colours, the open failing with errno 13, from the initial
globals: `0xFFFFFF` (brightness 255, enable), `0x000000` (sum 0, disable) and
`0x010101` (brightness 1, guard false, no write). -/
theorem C4_set_light_leds_notifications_witness :
    ({} : World).g_lock = false
    ∧ (∃ w' evs, set_light_leds_notifications (.open_failed 13) ⟨0xFFFFFF, 0⟩ {} = some (0, w')
        ∧ w'.trace = ({} : World).trace ++ evs
        ∧ write_calls evs = [(NOTIFICATION_FILE_BLN, 1)])
    ∧ (∃ w' evs, set_light_leds_notifications (.open_failed 13) ⟨0x000000, 0⟩ {} = some (0, w')
        ∧ w'.trace = ({} : World).trace ++ evs
        ∧ write_calls evs = [(NOTIFICATION_FILE_BLN, 0)])
    ∧ set_light_leds_notifications (.open_failed 13) ⟨0x010101, 0⟩ {} = some (0, {}) :=
  ⟨rfl,
    (C4_set_light_leds_notifications (.open_failed 13) ⟨0xFFFFFF, 0⟩ {} rfl).1
      ⟨Or.inr (by decide), by decide⟩,
    (C4_set_light_leds_notifications (.open_failed 13) ⟨0x000000, 0⟩ {} rfl).2.1
      ⟨Or.inl (by decide), by decide⟩,
    (C4_set_light_leds_notifications (.open_failed 13) ⟨0x010101, 0⟩ {} rfl).2.2.1
      (by decide)⟩

/-- C5: started with the lock free, for every state and every kernel answer
`set_light_backlight`, `set_light_buttons` and `set_light_keyboard` return
exactly the code their `write_int` call returned, a code that is 0 or
negative; `set_light_leds_notifications` returns 0 whatever `write_int`
returned; `set_light_leds_attention` and `set_light_battery` return 0 and leave
globals and trace untouched.  Every code `c ≤ 0` is returned by `write_int`
under some kernel answer. -/
theorem C5_error_propagation (v : Variant) (o : SysOutcome) (s : light_state_t) (w : World)
    (h : w.g_lock = false) :
    (∃ w1, pthread_mutex_lock w = some w1
      ∧ (∃ w', set_light_backlight o s w
          = some ((write_int o PANEL_FILE (rgb_to_brightness s) w1).1, w'))
      ∧ (∃ w', set_light_buttons v o s w
          = some ((write_int o (BUTTON_FILE v)
              ((if rgb_to_brightness s ≠ 0 then 255 else rgb_to_brightness s : Nat) : Int)
              w1).1, w'))
      ∧ (∃ w', set_light_keyboard o s w
          = some ((write_int o KEYBOARD_FILE (if is_lit s ≠ 0 then 1 else 0) w1).1, w'))
      ∧ ∀ path value, (write_int o path value w1).1 ≤ 0)
    ∧ (∃ w', set_light_leds_notifications o s w = some (0, w'))
    ∧ set_light_leds_attention s w = some (0, w)
    ∧ set_light_battery s w = some (0, w)
    ∧ ∀ c : Int, c ≤ 0 → ∃ o' : SysOutcome, ∀ path value w0,
        (write_int o' path value w0).1 = c := by
  refine ⟨⟨{ w with g_lock := true, trace := w.trace ++ [Event.mutex_lock] },
    by simp [pthread_mutex_lock, h], ?_, ?_, ?_, ?_⟩, ?_, rfl, rfl, ?_⟩
  · rw [set_light_backlight_eq, locked_write_int_eq _ _ _ _ h, write_int_eq]
    exact ⟨_, rfl⟩
  · rw [set_light_buttons_eq, locked_write_int_eq _ _ _ _ h, write_int_eq]
    exact ⟨_, rfl⟩
  · rw [set_light_keyboard_eq, locked_write_int_eq _ _ _ _ h, write_int_eq]
    exact ⟨_, rfl⟩
  · intro path value
    rw [write_int_eq]
    exact write_int_code_nonpos o
  · rw [set_light_leds_notifications_eq]
    by_cases hg : (rgb_to_brightness s + s.color) % 2 ^ 32 = 0 ∨ rgb_to_brightness s > 100
    · rw [if_pos hg, locked_write_int_eq _ _ _ _ h]
      exact ⟨_, rfl⟩
    · rw [if_neg hg]
      exact ⟨_, rfl⟩
  · intro c hc
    refine ⟨.write_failed c.natAbs, fun path value w0 => ?_⟩
    rw [write_int_eq]
    simp only [write_int_code]
    omega

/-- C5 at colour `0x808080` on the I927 build, the write failing with errno 5,
from the initial globals. -/
theorem C5_error_propagation_witness :
    ({} : World).g_lock = false
    ∧ ((∃ w1, pthread_mutex_lock {} = some w1
        ∧ (∃ w', set_light_backlight (.write_failed 5) ⟨0x808080, 0⟩ {}
            = some ((write_int (.write_failed 5) PANEL_FILE
                (rgb_to_brightness ⟨0x808080, 0⟩) w1).1, w'))
        ∧ (∃ w', set_light_buttons .I927 (.write_failed 5) ⟨0x808080, 0⟩ {}
            = some ((write_int (.write_failed 5) (BUTTON_FILE .I927)
                ((if rgb_to_brightness ⟨0x808080, 0⟩ ≠ 0 then 255
                  else rgb_to_brightness ⟨0x808080, 0⟩ : Nat) : Int) w1).1, w'))
        ∧ (∃ w', set_light_keyboard (.write_failed 5) ⟨0x808080, 0⟩ {}
            = some ((write_int (.write_failed 5) KEYBOARD_FILE
                (if is_lit ⟨0x808080, 0⟩ ≠ 0 then 1 else 0) w1).1, w'))
        ∧ ∀ path value, (write_int (.write_failed 5) path value w1).1 ≤ 0)
      ∧ (∃ w', set_light_leds_notifications (.write_failed 5) ⟨0x808080, 0⟩ {} = some (0, w'))
      ∧ set_light_leds_attention ⟨0x808080, 0⟩ {} = some (0, {})
      ∧ set_light_battery ⟨0x808080, 0⟩ {} = some (0, {})
      ∧ ∀ c : Int, c ≤ 0 → ∃ o' : SysOutcome, ∀ path value w0,
          (write_int o' path value w0).1 = c) :=
  ⟨rfl, C5_error_propagation .I927 (.write_failed 5) ⟨0x808080, 0⟩ {} rfl⟩

/-- C9: started with the lock free, for every state and every kernel answer the
four hardware-touching handlers return with the lock free again, and the events
they add keep the locking discipline: they are either none, or
`pthread_mutex_lock`, the `write_int` call with what happens inside it, and
`pthread_mutex_unlock`, in this order. -/
theorem C9_lock_discipline (v : Variant) (o : SysOutcome) (s : light_state_t) (w : World)
    (h : w.g_lock = false) :
    lock_disciplined_run w (set_light_backlight o s w)
    ∧ lock_disciplined_run w (set_light_buttons v o s w)
    ∧ lock_disciplined_run w (set_light_keyboard o s w)
    ∧ lock_disciplined_run w (set_light_leds_notifications o s w) := by
  have key : ∀ path value, lock_disciplined_run w (locked_write_int o path value w) := by
    intro path value
    rw [locked_write_int_eq _ _ _ _ h]
    exact ⟨_, _, _, rfl, rfl, rfl, lock_discipline_bracket _ _ _,
      Or.inr ⟨_, _, _, rfl, inside_write_int_inner _ _ _⟩⟩
  refine ⟨?_, ?_, ?_, ?_⟩
  · rw [set_light_backlight_eq]
    exact key _ _
  · rw [set_light_buttons_eq]
    exact key _ _
  · rw [set_light_keyboard_eq]
    exact key _ _
  · rw [set_light_leds_notifications_eq]
    by_cases hg : (rgb_to_brightness s + s.color) % 2 ^ 32 = 0 ∨ rgb_to_brightness s > 100
    · rw [if_pos hg, locked_write_int_eq _ _ _ _ h]
      exact ⟨_, _, _, rfl, rfl, rfl, lock_discipline_bracket _ _ _,
        Or.inr ⟨_, _, _, rfl, inside_write_int_inner _ _ _⟩⟩
    · rw [if_neg hg]
      exact ⟨0, w, [], rfl, h, (List.append_nil _).symm, rfl, Or.inl rfl⟩

/-- C9 at colour `0xFFFFFF` on the I927 build, the open failing with errno 2,
from the initial globals. -/
theorem C9_lock_discipline_witness :
    ({} : World).g_lock = false
    ∧ lock_disciplined_run {} (set_light_backlight (.open_failed 2) ⟨0xFFFFFF, 0⟩ {})
    ∧ lock_disciplined_run {} (set_light_buttons .I927 (.open_failed 2) ⟨0xFFFFFF, 0⟩ {})
    ∧ lock_disciplined_run {} (set_light_keyboard (.open_failed 2) ⟨0xFFFFFF, 0⟩ {})
    ∧ lock_disciplined_run {}
        (set_light_leds_notifications (.open_failed 2) ⟨0xFFFFFF, 0⟩ {}) :=
  ⟨rfl, C9_lock_discipline .I927 (.open_failed 2) ⟨0xFFFFFF, 0⟩ {} rfl⟩

/-! ## Registry -/

/-- C6: `open_lights` fails exactly off the recognized identifiers.  For a name
equal to none of `backlight`, `buttons`, `notifications`, `attention`,
`battery` (and `keyboard` on the I927 build) it returns `-EINVAL` and leaves
`*device` and the globals as they were; for a recognized name it returns 0 and
stores a handle with the device tag, version 0, the module passed in,
`close_lights` as close operation and the handler of that name's role as
`set_light`.  The names "nonexistent-light" and "Backlight" (wrong case) are
not recognized on any build, "keyboard" only on I927. -/
theorem C6_open_lights (P : Platform) (v : Variant) (module : Nat) (name : String)
    (device : Option light_device_t) (w : World) :
    (name ∉ [LIGHT_ID_BACKLIGHT, LIGHT_ID_BUTTONS, LIGHT_ID_NOTIFICATIONS,
          LIGHT_ID_ATTENTION, LIGHT_ID_BATTERY]
          ++ (if v = Variant.I927 then [LIGHT_ID_KEYBOARD] else []) →
      open_lights P v module name device w = (-(P.EINVAL : Int), device, w))
    ∧ (name ∈ [LIGHT_ID_BACKLIGHT, LIGHT_ID_BUTTONS, LIGHT_ID_NOTIFICATIONS,
          LIGHT_ID_ATTENTION, LIGHT_ID_BATTERY]
          ++ (if v = Variant.I927 then [LIGHT_ID_KEYBOARD] else []) →
      ∃ f, open_lights P v module name device w
          = (0, some { tag := P.HARDWARE_DEVICE_TAG, version := 0, module := module,
                       close := some close_fn.close_lights, set_light := some f },
              pthread_once w)
        ∧ (name = LIGHT_ID_BACKLIGHT → f = set_light_fn.set_light_backlight)
        ∧ (name = LIGHT_ID_BUTTONS → f = set_light_fn.set_light_buttons)
        ∧ (name = LIGHT_ID_NOTIFICATIONS → f = set_light_fn.set_light_leds_notifications)
        ∧ (name = LIGHT_ID_ATTENTION → f = set_light_fn.set_light_leds_attention)
        ∧ (name = LIGHT_ID_BATTERY → f = set_light_fn.set_light_battery)
        ∧ (name = LIGHT_ID_KEYBOARD → f = set_light_fn.set_light_keyboard))
    ∧ open_lights P v module "nonexistent-light" device w = (-(P.EINVAL : Int), device, w)
    ∧ open_lights P v module "Backlight" device w = (-(P.EINVAL : Int), device, w)
    ∧ (v ≠ Variant.I927 →
        open_lights P v module "keyboard" device w = (-(P.EINVAL : Int), device, w)) := by
  refine ⟨?_, ?_, ?_, ?_, ?_⟩
  · intro hn
    simp only [List.mem_append, List.mem_cons, List.mem_singleton, List.not_mem_nil,
      or_false, not_or] at hn
    obtain ⟨⟨h1, h2, h3, h4, h5⟩, h6⟩ := hn
    have h6' : ¬ (v = Variant.I927 ∧ LIGHT_ID_KEYBOARD = name) := by
      rintro ⟨hv, hk⟩
      rw [if_pos hv] at h6
      exact h6 (List.mem_singleton.mpr hk.symm)
    unfold open_lights
    simp only [if_neg (Ne.symm h1), if_neg (Ne.symm h2), if_neg (Ne.symm h3),
      if_neg (Ne.symm h4), if_neg (Ne.symm h5), if_neg h6']
  · intro hm
    simp only [List.mem_append, List.mem_cons, List.mem_singleton, List.not_mem_nil,
      or_false] at hm
    rcases hm with (h | h | h | h | h) | h
    · subst h
      exact ⟨_, rfl, fun _ => rfl, by decide, by decide, by decide, by decide, by decide⟩
    · subst h
      exact ⟨_, rfl, by decide, fun _ => rfl, by decide, by decide, by decide, by decide⟩
    · subst h
      exact ⟨_, rfl, by decide, by decide, fun _ => rfl, by decide, by decide, by decide⟩
    · subst h
      exact ⟨_, rfl, by decide, by decide, by decide, fun _ => rfl, by decide, by decide⟩
    · subst h
      exact ⟨_, rfl, by decide, by decide, by decide, by decide, fun _ => rfl, by decide⟩
    · cases v
      · simp at h
      · simp only [if_true, List.mem_singleton] at h
        subst h
        exact ⟨_, rfl, by decide, by decide, by decide, by decide, by decide, fun _ => rfl⟩
      · simp at h
  · cases v <;> rfl
  · cases v <;> rfl
  · intro hv
    cases v
    · rfl
    · exact absurd rfl hv
    · rfl

/-! ## Device-file writer -/

/-- Warnings of a concatenated trace. -/
theorem warnings_append (l l' : List Event) : warnings (l ++ l') = warnings l + warnings l' := by
  induction l with
  | nil => simp [warnings]
  | cons e es ih =>
    cases e <;> simp [warnings, ih]
    omega

/-- Every failed open logs the warning: a run of `write_int` calls whose opens
all fail adds one warning per call, and each call returns `-errno`. -/
theorem write_int_calls_open_failed (calls : List (Nat × String × Int)) (w : World) :
    (write_int_calls (calls.map fun c => (SysOutcome.open_failed c.1, c.2.1, c.2.2)) w).1
        = calls.map (fun c => -(c.1 : Int))
    ∧ warnings
        (write_int_calls (calls.map fun c => (SysOutcome.open_failed c.1, c.2.1, c.2.2)) w).2.trace
        = warnings w.trace + calls.length := by
  induction calls generalizing w with
  | nil => simp [write_int_calls]
  | cons c cs ih =>
    obtain ⟨e, path, value⟩ := c
    simp only [List.map_cons, write_int_calls, List.length_cons]
    refine ⟨?_, ?_⟩
    · rw [(ih _).1, write_int_eq]
      rfl
    · rw [(ih _).2, write_int_eq]
      simp only [warnings_append, write_int_inner, warnings]
      omega

/-- C7 (the code at the failing input): two `write_int` calls in a row on a
path whose open fails with errno 2, from the initial globals, each return -2
and each log the warning, so the trace holds two warnings. -/
theorem C7_warning_repeats_on_second_failed_open :
    (write_int_calls
        [(.open_failed 2, PANEL_FILE, 255), (.open_failed 2, PANEL_FILE, 255)] {}).1
      = [-2, -2]
    ∧ (write_int_calls
        [(.open_failed 2, PANEL_FILE, 255), (.open_failed 2, PANEL_FILE, 255)] {}).2.trace
      = [Event.write_int PANEL_FILE 255, Event.ALOGE PANEL_FILE 2,
         Event.write_int PANEL_FILE 255, Event.ALOGE PANEL_FILE 2]
    ∧ warnings (write_int_calls
        [(.open_failed 2, PANEL_FILE, 255), (.open_failed 2, PANEL_FILE, 255)] {}).2.trace
      = 2 := by
  decide


end Lights
